import Mathlib

/-!
Shallow embedding of the SQL expression-builder core of the `olo` repository:
the operator precedence table, the operator negation tables, the rendering
helpers `sql_and_params` / `get_sql_pieces_and_params` (src/olo/utils.py), and
the binary operation mixin (src/olo/mixins/operations.py).

Python dicts with string keys are embedded as association lists looked up with
`List.lookup`; none of the embedded dicts has duplicate keys, so first-match
lookup agrees with the dict. Python's `str.upper` is embedded as `pyUpper` and
`str.strip` as `pyStrip` below (the operator strings involved are ASCII, where
these agree with Python's Unicode-aware versions).
-/

/-- Embedding of Python `str.upper` (ASCII): uppercase every character. -/
def pyUpper (s : String) : String :=
  String.mk (s.data.map Char.toUpper)

/-- Embedding of Python `str.strip`: drop whitespace from both ends. -/
def pyStrip (s : String) : String :=
  String.mk (((s.data.dropWhile Char.isWhitespace).reverse.dropWhile
    Char.isWhitespace).reverse)

/-- The fixed ordered tier list `_OPERATOR_PRECEDENCES` from src/olo/utils.py:
tightest-binding tier listed first. -/
def tierList : List (List String) :=
  [["*", "/", "%", "DIV", "MOD"],
   ["-", "+"],
   ["<<", ">>"],
   ["=", "!=", ">", "<", ">=", "<=", "IN", "IS", "IS NOT", "NOT IN"],
   ["BETWEEN", "CASE"],
   ["AND", "&&"],
   ["OR", "||"]]

/-- `OPERATOR_PRECEDENCES`: dict comprehension
`{item: idx for idx, items in enumerate(reversed(_OPERATOR_PRECEDENCES)) for item in items}`
embedded as an association list in the same enumeration order. -/
def OPERATOR_PRECEDENCES : List (String × Int) :=
  (tierList.reverse.enum).flatMap (fun p => p.2.map (fun item => (item, (p.1 : Int))))

/-- `get_operator_precedence(operator)`: `OPERATOR_PRECEDENCES.get(operator, -1)`. -/
def get_operator_precedence (operator : String) : Int :=
  (OPERATOR_PRECEDENCES.lookup operator).getD (-1)

/-- `compare_operator_precedence(a, b)`: uppercase both, look up, compare. -/
def compare_operator_precedence (a b : String) : Int :=
  let ap := get_operator_precedence (pyUpper a)
  let bp := get_operator_precedence (pyUpper b)
  if ap = bp then 0
  else if ap > bp then 1
  else -1

/-- Base one-directional map of `UNARY_NEG_OPERATOR` before the union with its
inverse. -/
def unaryNegBase : List (String × String) := [("-", "+")]

/-- `UNARY_NEG_OPERATOR = dict({v: k for k, v in base.iteritems()}, **base)`:
the inverse entries unioned with the base entries (keys are disjoint, so the
override order is immaterial to lookup). -/
def UNARY_NEG_OPERATOR : List (String × String) :=
  unaryNegBase.map (fun p => (p.2, p.1)) ++ unaryNegBase

/-- Base one-directional map of `BINARY_NEG_OPERATOR` before the union with its
inverse. -/
def binaryNegBase : List (String × String) :=
  [("IN", "NOT IN"), ("IS", "IS NOT"), ("=", "!="), (">", "<="), ("<", ">=")]

/-- `BINARY_NEG_OPERATOR = dict({v: k for k, v in base.iteritems()}, **base)`. -/
def BINARY_NEG_OPERATOR : List (String × String) :=
  binaryNegBase.map (fun p => (p.2, p.1)) ++ binaryNegBase

/-- `get_neg_operator(op, is_unary=False)`: strip and uppercase `op`, then look
it up in the unary table when `is_unary` else in the binary table; `dict.get`
with no default is `Option`-valued. -/
def get_neg_operator (op : String) (is_unary : Bool) : Option String :=
  let op := pyUpper (pyStrip op)
  if is_unary then UNARY_NEG_OPERATOR.lookup op
  else BINARY_NEG_OPERATOR.lookup op

/-- `self.BinaryExpression(left, right, operator)` from the operation mixin:
an immutable node holding the two operands and the operator symbol. The left
operand is always the mixin receiver; the right operand may be any value. -/
structure BinaryExpression (α β : Type) where
  left : α
  right : β
  operator : String
deriving DecidableEq

/-- `BinaryOperationMixin.__add__`: `self.BinaryExpression(self, other, '+')`. -/
def BinaryOperationMixin.add (self : α) (other : β) : BinaryExpression α β :=
  ⟨self, other, "+"⟩

/-- `BinaryOperationMixin.__radd__ = __add__` (alias in the class body). -/
def BinaryOperationMixin.radd : α → β → BinaryExpression α β :=
  BinaryOperationMixin.add

/-- `BinaryOperationMixin.__sub__`: `self.BinaryExpression(self, other, '-')`. -/
def BinaryOperationMixin.sub (self : α) (other : β) : BinaryExpression α β :=
  ⟨self, other, "-"⟩

/-- `BinaryOperationMixin.__rsub__ = __sub__` (alias in the class body). -/
def BinaryOperationMixin.rsub : α → β → BinaryExpression α β :=
  BinaryOperationMixin.sub

/-- `BinaryOperationMixin.__eq__`: operator `'='`, switched to `'IS'` when
`other is None`. The right operand is `Option β`, with `Option.none` embedding
Python's `None`. -/
def BinaryOperationMixin.eq (self : α) (other : Option β) :
    BinaryExpression α (Option β) :=
  let operator := if other.isNone then "IS" else "="
  ⟨self, other, operator⟩

/-- `BinaryOperationMixin.__ne__`: operator `'!='`, switched to `'IS NOT'`
when `other is None`. -/
def BinaryOperationMixin.ne (self : α) (other : Option β) :
    BinaryExpression α (Option β) :=
  let operator := if other.isNone then "IS NOT" else "!="
  ⟨self, other, operator⟩

/-- `BinaryOperationMixin.is_`: always operator `'IS'`. -/
def BinaryOperationMixin.is_ (self : α) (other : Option β) :
    BinaryExpression α (Option β) :=
  ⟨self, other, "IS"⟩

/-- `BinaryOperationMixin.is_not_`: always operator `'IS NOT'`. -/
def BinaryOperationMixin.is_not_ (self : α) (other : Option β) :
    BinaryExpression α (Option β) :=
  ⟨self, other, "IS NOT"⟩

/-- An operand passed to the rendering helpers of src/olo/utils.py: either an
expression, i.e. a value with a `get_sql_and_params` method (embedded by the
pair that method returns), or a plain literal value of type `V`. This mirrors
the `hasattr(v, 'get_sql_and_params')` duck-typing dispatch. -/
inductive Operand (V : Type) where
  | expr (sql : String) (params : List V)
  | lit (v : V)
deriving DecidableEq

/-- `sql_and_params(v, coerce=str)`: an expression returns its own rendering;
anything else returns `(coerce(v), [])`. The Python builtin `str` (the default
of `coerce`) is passed explicitly as `strFn` by callers that omit `coerce`. -/
def sql_and_params (v : Operand V) (coerce : V → String) : String × List V :=
  match v with
  | .expr s ps => (s, ps)
  | .lit x => (coerce x, [])

/-- The loop body of `get_sql_pieces_and_params`: accumulates `pieces` and
`params`, extending `params` only when the element's params are non-empty
(`if _params:`). Each element is rendered by `sql_and_params(exp)` with the
default coercion `strFn` (the call site passes no `coerce` argument). -/
def get_sql_pieces_loop (strFn : V → String) :
    List (Operand V) → List String → List V → List String × List V
  | [], pieces, params => (pieces, params)
  | exp :: rest, pieces, params =>
    let pair := sql_and_params exp strFn
    get_sql_pieces_loop strFn rest (pieces ++ [pair.1])
      (if pair.2.isEmpty then params else params ++ pair.2)

/-- `get_sql_pieces_and_params(exps, coerce=str)`: renders each element with
`sql_and_params(exp)` — note the `coerce` argument is never forwarded, the
loop uses the default `str` (here `strFn`). -/
def get_sql_pieces_and_params (strFn : V → String) (exps : List (Operand V))
    (coerce : V → String) : List String × List V :=
  get_sql_pieces_loop strFn exps [] []

/-- The parameter contribution of a single element of `exps`: an expression
contributes its rendered params, a literal contributes none. -/
def elementParams : Operand V → List V
  | .expr _ ps => ps
  | .lit _ => []

/-- Every value stored in the precedence table is a nonnegative tier. -/
theorem precedence_values_nonneg : ∀ p ∈ OPERATOR_PRECEDENCES, 0 ≤ p.2 := by
  decide

/-- Every key of the precedence table is fixed by uppercasing. -/
theorem precedence_keys_upper :
    ∀ p ∈ OPERATOR_PRECEDENCES, pyUpper p.1 = p.1 := by
  decide

/-- A successful association-list lookup pins a pair of the list. -/
theorem lookup_eq_some_mem {β : Type} (d : List (String × β)) (k : String)
    (v : β) (h : d.lookup k = some v) : (k, v) ∈ d := by
  induction d with
  | nil => simp [List.lookup] at h
  | cons p rest ih =>
    rw [List.lookup] at h
    rcases hk : (k == p.1) with _ | _
    · simp [hk] at h
      exact List.mem_cons_of_mem _ (ih h)
    · have hkp : k = p.1 := by
        have := hk
        simpa using this
      simp [hk] at h
      subst hkp
      subst h
      exact List.mem_cons_self _ _


/-- Claim C1: equality selects operator `IS` exactly when the operand is the
null sentinel and `=` otherwise; inequality selects `IS NOT` exactly for the
sentinel and `!=` otherwise; the explicit `is_` / `is_not_` capabilities
select `IS` / `IS NOT` for every operand, sentinel or not. -/
theorem eq_ne_operator_selection (x : α) (v : Option β) :
    BinaryOperationMixin.eq x v =
      ⟨x, v, if v.isNone then "IS" else "="⟩ ∧
    BinaryOperationMixin.ne x v =
      ⟨x, v, if v.isNone then "IS NOT" else "!="⟩ ∧
    ((BinaryOperationMixin.eq x v).operator = "IS" ↔ v = none) ∧
    ((BinaryOperationMixin.ne x v).operator = "IS NOT" ↔ v = none) ∧
    BinaryOperationMixin.is_ x v = ⟨x, v, "IS"⟩ ∧
    BinaryOperationMixin.is_not_ x v = ⟨x, v, "IS NOT"⟩ := by
  cases v <;>
    simp [BinaryOperationMixin.eq, BinaryOperationMixin.ne,
      BinaryOperationMixin.is_, BinaryOperationMixin.is_not_]

/-- Claim C2: the precedence table maps each operator to exactly the tier the
spec lists, from `OR`/`||` at 0 up to the multiplicative tier at 6. -/
theorem precedence_table_tiers :
    get_operator_precedence "OR" = 0 ∧ get_operator_precedence "||" = 0 ∧
    get_operator_precedence "AND" = 1 ∧ get_operator_precedence "&&" = 1 ∧
    get_operator_precedence "BETWEEN" = 2 ∧
    get_operator_precedence "CASE" = 2 ∧
    get_operator_precedence "=" = 3 ∧ get_operator_precedence "!=" = 3 ∧
    get_operator_precedence ">" = 3 ∧ get_operator_precedence "<" = 3 ∧
    get_operator_precedence ">=" = 3 ∧ get_operator_precedence "<=" = 3 ∧
    get_operator_precedence "IN" = 3 ∧ get_operator_precedence "IS" = 3 ∧
    get_operator_precedence "IS NOT" = 3 ∧
    get_operator_precedence "NOT IN" = 3 ∧
    get_operator_precedence "<<" = 4 ∧ get_operator_precedence ">>" = 4 ∧
    get_operator_precedence "-" = 5 ∧ get_operator_precedence "+" = 5 ∧
    get_operator_precedence "*" = 6 ∧ get_operator_precedence "/" = 6 ∧
    get_operator_precedence "%" = 6 ∧ get_operator_precedence "DIV" = 6 ∧
    get_operator_precedence "MOD" = 6 := by
  decide

/-- Claim C9: the reversed add capability is the very same operation as the
forward add, producing `BinaryExpression(self, other, '+')`, and the reversed
subtract is the same operation as the forward subtract, producing
`BinaryExpression(self, other, '-')`. -/
theorem radd_rsub_same_as_forward (x : α) (y : β) :
    BinaryOperationMixin.radd x y = BinaryOperationMixin.add x y ∧
    BinaryOperationMixin.radd x y = ⟨x, y, "+"⟩ ∧
    BinaryOperationMixin.rsub x y = BinaryOperationMixin.sub x y ∧
    BinaryOperationMixin.rsub x y = ⟨x, y, "-"⟩ :=
  ⟨rfl, rfl, rfl, rfl⟩

/-- The accumulator invariant of the rendering loop: the final pieces are the
starting pieces followed by one piece per operand in order, and the final
params are the starting params followed by each operand's own params in
order. -/
theorem get_sql_pieces_loop_spec (strFn : V → String) (exps : List (Operand V))
    (pieces : List String) (params : List V) :
    get_sql_pieces_loop strFn exps pieces params =
      (pieces ++ exps.map (fun e => (sql_and_params e strFn).1),
       params ++ (exps.map elementParams).flatten) := by
  induction exps generalizing pieces params with
  | nil => simp [get_sql_pieces_loop]
  | cons e rest ih =>
    have hparams :
        (if (sql_and_params e strFn).2.isEmpty then params
         else params ++ (sql_and_params e strFn).2) =
          params ++ elementParams e := by
      cases e with
      | expr s ps => cases ps <;> simp [sql_and_params, elementParams]
      | lit x => simp [sql_and_params, elementParams]
    simp [get_sql_pieces_loop, ih, hparams]

/-- Claim C3: for every input sequence (and every coercion argument), the
sequence combinator returns the text pieces in left-to-right traversal order
and the parameter list equal to the concatenation, in that same order, of
each element's own parameter list — an expression contributes its rendered
params, any other element contributes none. -/
theorem pieces_and_params_order (strFn : V → String) (exps : List (Operand V))
    (coerce : V → String) :
    (get_sql_pieces_and_params strFn exps coerce).1 =
      exps.map (fun e => (sql_and_params e strFn).1) ∧
    (get_sql_pieces_and_params strFn exps coerce).2 =
      (exps.map elementParams).flatten := by
  unfold get_sql_pieces_and_params
  rw [get_sql_pieces_loop_spec]
  simp

/-- Claim C4: rendering a literal directly with a caller-supplied coercion
yields `(coerce v, [])`; but the sequence combinator does NOT apply the
caller-supplied coercion to its elements — it renders them with the default
coercion instead, so at the concrete input below the two paths disagree
(`get_sql_pieces_and_params` ignores its `coerce` argument). Instantiated at
`V = String` with default coercion `id` and caller coercion that quotes. -/
theorem literal_coercion_divergence :
    sql_and_params (Operand.lit "a")
      (fun s => String.append (String.append "'" s) "'") =
      ("'a'", ([] : List String)) ∧
    get_sql_pieces_and_params id [Operand.lit "a"]
      (fun s => String.append (String.append "'" s) "'") =
      (["a"], ([] : List String)) ∧
    ("a" : String) ≠ "'a'" := by
  refine ⟨rfl, ?_, by decide⟩
  rfl

/-- Claim C5: precedence comparison is a reflexive antisymmetric three-valued
order: `compare a b = -compare b a`, `compare a a = 0`, the result is one of
-1, 0, 1, and equal precedence after uppercasing compares as 0. -/
theorem compare_precedence_order (a b : String) :
    compare_operator_precedence a b = -compare_operator_precedence b a ∧
    compare_operator_precedence a a = 0 ∧
    (compare_operator_precedence a b = -1 ∨
      compare_operator_precedence a b = 0 ∨
      compare_operator_precedence a b = 1) ∧
    (get_operator_precedence (pyUpper a) = get_operator_precedence (pyUpper b) →
      compare_operator_precedence a b = 0) := by
  refine ⟨?_, ?_, ?_, ?_⟩ <;>
    simp only [compare_operator_precedence] <;> split_ifs <;> omega

/-- Closed instance of claim C5 discharging the equal-precedence hypothesis:
`or` and `Or` both uppercase to `OR`, so they compare as 0. -/
theorem compare_precedence_order_witness :
    compare_operator_precedence "or" "Or" = 0 :=
  (compare_precedence_order "or" "Or").2.2.2 (by decide)

/-- Claim C6: on every operator with a defined negation — all keys of the
binary table (`IN`↔`NOT IN`, `IS`↔`IS NOT`, `=`↔`!=`, `>`↔`<=`, `<`↔`>=`) and
of the unary table (`-`↔`+`) — negating twice returns the original operator. -/
theorem neg_operator_involution :
    (∀ op, op ∈ BINARY_NEG_OPERATOR.map Prod.fst →
      (get_neg_operator op false).bind (fun q => get_neg_operator q false) =
        some op) ∧
    (∀ op, op ∈ UNARY_NEG_OPERATOR.map Prod.fst →
      (get_neg_operator op true).bind (fun q => get_neg_operator q true) =
        some op) := by
  constructor <;>
  · intro op h
    simp only [BINARY_NEG_OPERATOR, binaryNegBase, UNARY_NEG_OPERATOR,
      unaryNegBase, List.map_append, List.map_cons, List.map_nil,
      List.mem_append, List.mem_cons, List.not_mem_nil, or_false] at h
    rcases h with h | h <;> rcases h with rfl | h <;>
      first
        | decide
        | (rcases h with rfl | h <;>
            first
              | decide
              | (rcases h with rfl | h <;>
                  first
                    | decide
                    | (rcases h with rfl | rfl <;> decide)))

/-- Closed instance of claim C6: `IN` is a key of the binary negation table
and negating it twice gives back `IN`. -/
theorem neg_operator_involution_witness :
    (get_neg_operator "IN" false).bind (fun q => get_neg_operator q false) =
      some "IN" :=
  neg_operator_involution.1 "IN" (by decide)

/-- Claim C7: an operator whose uppercased form is absent from the precedence
table gets the sentinel -1 from `get_operator_precedence` (both for the raw
and for the uppercased spelling — table keys are uppercase-stable), and
comparing it against any operator present in the table yields -1, since every
table tier is nonnegative. -/
theorem unknown_operator_sentinel (op b : String)
    (h1 : OPERATOR_PRECEDENCES.lookup (pyUpper op) = none)
    (h2 : (OPERATOR_PRECEDENCES.lookup (pyUpper b)).isSome) :
    get_operator_precedence (pyUpper op) = -1 ∧
    get_operator_precedence op = -1 ∧
    compare_operator_precedence op b = -1 ∧
    0 ≤ get_operator_precedence (pyUpper b) := by
  have hbp : 0 ≤ get_operator_precedence (pyUpper b) := by
    rcases Option.isSome_iff_exists.mp h2 with ⟨v, hv⟩
    have hmem := lookup_eq_some_mem _ _ _ hv
    have hnn := precedence_values_nonneg _ hmem
    simpa [get_operator_precedence, hv] using hnn
  have hop : OPERATOR_PRECEDENCES.lookup op = none := by
    cases hcase : OPERATOR_PRECEDENCES.lookup op with
    | none => rfl
    | some v =>
      have hmem := lookup_eq_some_mem _ _ _ hcase
      have hup : pyUpper op = op := precedence_keys_upper _ hmem
      rw [hup, hcase] at h1
      exact absurd h1 (by simp)
  have hap : get_operator_precedence (pyUpper op) = -1 := by
    simp [get_operator_precedence, h1]
  refine ⟨hap, by simp [get_operator_precedence, hop], ?_, hbp⟩
  simp only [compare_operator_precedence, hap]
  split_ifs with hEq hGt
  · omega
  · omega
  · rfl

/-- Closed instance of claim C7 at the unknown operator `foo` against the
known operator `OR`. -/
theorem unknown_operator_sentinel_witness :
    get_operator_precedence (pyUpper "foo") = -1 ∧
    get_operator_precedence "foo" = -1 ∧
    compare_operator_precedence "foo" "OR" = -1 ∧
    0 ≤ get_operator_precedence (pyUpper "OR") :=
  unknown_operator_sentinel "foo" "OR" (by decide) (by decide)

/-- Claim C8: negation lookup first strips and uppercases its argument, then
consults the unary table when `is_unary` holds and the binary table otherwise,
and returns `none` — never a fault — whenever the normalized operator has no
entry in the selected table. -/
theorem neg_operator_normalizes (op : String) (u : Bool) :
    get_neg_operator op u =
      (if u then UNARY_NEG_OPERATOR else BINARY_NEG_OPERATOR).lookup
        (pyUpper (pyStrip op)) ∧
    ((if u then UNARY_NEG_OPERATOR else BINARY_NEG_OPERATOR).lookup
        (pyUpper (pyStrip op)) = none → get_neg_operator op u = none) := by
  cases u <;> simp [get_neg_operator]

/-- Closed instance of claim C8: `LIKE` has no negation entry, so the lookup
for `" like "` returns `none`. -/
theorem neg_operator_normalizes_witness :
    get_neg_operator " like " false = none :=
  (neg_operator_normalizes " like " false).2 (by decide)

/-- Claim C10: `get_operator_precedence` performs no case normalization — the
lowercase spellings `or`, `and`, `in` of known operators get the unknown
sentinel -1 (as does any string absent from the table), while
`compare_operator_precedence` uppercases before the lookup, so the same
spellings compare equal to their uppercase forms. -/
theorem precedence_lookup_case_sensitive :
    (∀ s, OPERATOR_PRECEDENCES.lookup s = none →
      get_operator_precedence s = -1) ∧
    get_operator_precedence "or" = -1 ∧ get_operator_precedence "and" = -1 ∧
    get_operator_precedence "in" = -1 ∧
    get_operator_precedence "OR" = 0 ∧ get_operator_precedence "AND" = 1 ∧
    get_operator_precedence "IN" = 3 ∧
    compare_operator_precedence "or" "OR" = 0 ∧
    compare_operator_precedence "and" "AND" = 0 ∧
    compare_operator_precedence "in" "IN" = 0 := by
  refine ⟨fun s h => by simp [get_operator_precedence, h], ?_⟩
  decide

/-- Closed instance of claim C10 at a string absent from the table. -/
theorem precedence_lookup_case_sensitive_witness :
    get_operator_precedence "xyz" = -1 :=
  precedence_lookup_case_sensitive.1 "xyz" (by decide)
